import Mathlib

/-!
Shallow embedding of the IoT real-time energy-monitoring system
(Streamlit dashboard + FastAPI server + scikit-learn IsolationForest).

Conventions of the embedding:
* Python floats are modelled as rationals (`ℚ`); the floating-point
  transcendental pattern terms (`np.exp`, `np.sin`) do not influence any
  claim, so they enter as universally quantified parameters.
* Python lists are `List`; a pandas `DataFrame` of feature rows is a
  `List (List ℚ)` or a list of record structures.
* scikit-learn's `StandardScaler` and `IsolationForest` are library
  calls, not repository code; they are abstracted as function-valued
  structures, with the one documented coupling the repository relies on
  (`predict` returns `-1` exactly on negative `decision_function`
  values) made explicit.
* Randomness (`np.random.*`) is passed in as explicit draw parameters.
-/

/-- Python slice `xs[s:]` for an arbitrary integer start `s`
(`xs[-k:]` is `pySliceFrom xs (-k)`): a non-negative start drops `s`
elements from the front, a negative start keeps the last `-s` elements
(clamped at the full list).  In particular `xs[-0:]` is `xs[0:]`, the
whole list, reproducing Python's `-0 == 0`. -/
def pySliceFrom {α : Type} (xs : List α) (s : Int) : List α :=
  if 0 ≤ s then xs.drop s.toNat else xs.drop ((xs.length : Int) + s).toNat

/-- From `src/utils.py`, `check_threshold_breach(current_value,
low_threshold, high_threshold)`: "High"/"red" when the value is at least
the high threshold, otherwise "Moderate"/"orange" when at least the low
threshold, otherwise "Normal"/"green". -/
def check_threshold_breach (current_value low_threshold high_threshold : ℚ) :
    String × String :=
  if high_threshold ≤ current_value then ("High", "red")
  else if low_threshold ≤ current_value then ("Moderate", "orange")
  else ("Normal", "green")

/-- An entry of `st.session_state.alert_history` in `src/app.py`:
a dict with keys `timestamp`, `current`, `power`, `type`, `status`.
The timestamp's representation is irrelevant to the alert logic, so it
is a type parameter. -/
structure Alert (τ : Type) where
  timestamp : τ
  current : ℚ
  power : ℚ
  type : String
  status : String

/-- The alert-classification step of `update_data` in `src/app.py`
(lines 112-131 for the API path and the textually identical lines
159-183 for the simulated fallback path): compute the threshold status
of the new point's current, and append an alert entry exactly when the
status is "High" or the anomaly flag is set; the entry's type is
"Anomaly Detected" when the anomaly flag is set and "Threshold Breach"
otherwise, and the entry records the computed status. -/
def update_data_alert_step {τ : Type} (alert_history : List (Alert τ))
    (ts : τ) (cur pow : ℚ) (is_anomaly : Bool) (low high : ℚ) :
    List (Alert τ) :=
  let sc := check_threshold_breach cur low high
  if sc.1 = "High" ∨ is_anomaly = true then
    alert_history ++
      [⟨ts, cur, pow,
        if is_anomaly then "Anomaly Detected" else "Threshold Breach", sc.1⟩]
  else
    alert_history

/-- Fitted parameters of scikit-learn's `StandardScaler` after
`fit_transform`, abstracted to the one capability the repository uses:
transforming a feature row. -/
structure Scaler where
  transform : List ℚ → List ℚ

/-- Constructor arguments of `IsolationForest(...)` as passed by
`train_isolation_forest_model` in `src/anomaly_detection.py`. -/
structure ForestParams where
  n_estimators : ℕ
  max_samples : String
  contamination : ℚ
  random_state : ℕ
deriving DecidableEq

/-- A fitted `IsolationForest`, abstracted to its per-row
`decision_function`. -/
structure Forest where
  decision_function : List ℚ → ℚ

/-- scikit-learn's documented `IsolationForest.predict`: `-1` (anomaly)
exactly where `decision_function` is negative, `1` (normal) otherwise. -/
def Forest.predict (f : Forest) (row : List ℚ) : Int :=
  if f.decision_function row < 0 then -1 else 1

/-- The scikit-learn fitting routines the repository calls into,
abstracted as arbitrary (deterministic, seeded) functions:
`fitScaler data` is `StandardScaler()` fitted by `fit_transform(data)`,
and `fitForest p rows` is `IsolationForest(**p).fit(rows)`. -/
structure SKLearn where
  fitScaler : List (List ℚ) → Scaler
  fitForest : ForestParams → List (List ℚ) → Forest

/-- The value returned by `train_isolation_forest_model`: the fitted
forest together with the scaler stored on it by the assignment
`model.scaler_ = scaler`. -/
structure Model where
  forest : Forest
  scaler_ : Scaler

/-- From `src/anomaly_detection.py`, `train_isolation_forest_model(data)`:
fit a `StandardScaler` on the training features, train an
`IsolationForest(n_estimators=100, max_samples='auto',
contamination=0.01, random_state=42)` on the scaled features, and store
the fitted scaler on the returned model. -/
def train_isolation_forest_model (sk : SKLearn) (data : List (List ℚ)) :
    Model :=
  let scaler := sk.fitScaler data
  let scaled_data := data.map scaler.transform
  let model := sk.fitForest ⟨100, "auto", 1/100, 42⟩ scaled_data
  { forest := model, scaler_ := scaler }

/-- From `src/anomaly_detection.py`, `detect_anomalies(model, data)`:
scale the data with the scaler stored on the model, predict with the
forest, and return one boolean per row, true exactly on prediction
`-1`. -/
def detect_anomalies (model : Model) (data : List (List ℚ)) : List Bool :=
  let scaled_data := data.map model.scaler_.transform
  let predictions := scaled_data.map model.forest.predict
  predictions.map (fun p => decide (p = -1))

/-- From `src/anomaly_detection.py`, `get_anomaly_score(model, data)`:
scale the data with the scaler stored on the model, take the forest's
decision-function scores, and return their negations (higher is more
anomalous). -/
def get_anomaly_score (model : Model) (data : List (List ℚ)) : List ℚ :=
  let scaled_data := data.map model.scaler_.transform
  let scores := scaled_data.map model.forest.decision_function
  scores.map (fun s => -s)

/-- From `src/api_server.py`: `MAX_LATEST_READINGS = 60`. -/
def MAX_LATEST_READINGS : ℕ := 60

/-- The buffer update in `add_reading` (`src/api_server.py` lines
96-99): append the new reading to `latest_readings`, then if the buffer
exceeds `MAX_LATEST_READINGS` keep only the slice
`latest_readings[-MAX_LATEST_READINGS:]`. -/
def add_reading_buffer {α : Type} (latest_readings : List α) (new_reading : α) :
    List α :=
  let appended := latest_readings ++ [new_reading]
  if MAX_LATEST_READINGS < appended.length then
    pySliceFrom appended (-(MAX_LATEST_READINGS : Int))
  else
    appended

/-- The `/api/readings/latest` handler (`src/api_server.py` lines
149-153): clamp `limit` to the buffer length with `min`, then return
the Python slice `latest_readings[-limit:]`. -/
def get_latest_readings {α : Type} (latest_readings : List α) (limit : Int) :
    List α :=
  let limit := min limit (latest_readings.length : Int)
  pySliceFrom latest_readings (-limit)

/-- A record of the JSON history file as stored on disk: the numeric
fields plus the timestamp in its string form. -/
structure RawRecord where
  current : ℚ
  voltage : ℚ
  power : ℚ
  device_id : String
  timestamp : String
deriving DecidableEq

/-- A row of the DataFrame `load_data` returns: the same record with
the timestamp parsed to a datetime value (of abstract type `τ`). -/
structure ParsedRecord (τ : Type) where
  current : ℚ
  voltage : ℚ
  power : ℚ
  device_id : String
  timestamp : τ

/-- Parsing one record's timestamp, as `pd.to_datetime` applied to the
`timestamp` column does row-wise; `parse` abstracts pandas' datetime
parser. -/
def parseRecord {τ : Type} (parse : String → τ) (r : RawRecord) :
    ParsedRecord τ :=
  ⟨r.current, r.voltage, r.power, r.device_id, parse r.timestamp⟩

/-- Rendering one record's timestamp back to a string, as `save_data`'s
`astype(str)` on the `timestamp` column does row-wise; `render`
abstracts pandas' string rendering. -/
def renderRecord {τ : Type} (render : τ → String) (r : ParsedRecord τ) :
    RawRecord :=
  ⟨r.current, r.voltage, r.power, r.device_id, render r.timestamp⟩

/-- Outcome of the file access inside `load_data`'s `try` block: the
file is absent (`os.path.exists` false), or reading/parsing raises,
or it yields the list of records stored in the JSON file. -/
inductive LoadOutcome : Type where
  | missing : LoadOutcome
  | raises : String → LoadOutcome
  | ok : List RawRecord → LoadOutcome

/-- Outcome of the file write inside `save_data`'s `try` block. -/
inductive WriteOutcome : Type where
  | ok : WriteOutcome
  | raises : String → WriteOutcome

/-- From `src/utils.py`, `load_data(filename)`: `None` when the file
does not exist, `None` (after printing) when any exception is raised
while reading or parsing, and otherwise the DataFrame of the file's
records with the timestamp column parsed to datetimes. -/
def load_data {τ : Type} (parse : String → τ) (outcome : LoadOutcome) :
    Option (List (ParsedRecord τ)) :=
  match outcome with
  | .missing => none
  | .raises _ => none
  | .ok records => some (records.map (parseRecord parse))

/-- From `src/utils.py`, `save_data(data, filename)`: convert the
timestamp column to strings and dump the records to the file; any
exception is caught and only printed.  The result is the pair of what
was written (`none` when the write raised) and what was printed
(`none` on success) — never a propagated exception. -/
def save_data {τ : Type} (render : τ → String) (write : WriteOutcome)
    (data : List (ParsedRecord τ)) :
    Option (List RawRecord) × Option String :=
  match write with
  | .ok => (some (data.map (renderRecord render)), none)
  | .raises e => (none, some ("Error saving data: " ++ e))

/-- The state of the JSON history file as `add_reading`'s periodic-save
branch finds it: the records it currently persists, and whether
`load_data`'s `try` block raises on it (corrupt JSON, or a stored
timestamp string `pd.to_datetime` cannot parse) even though the file
exists. -/
structure HistoryFile where
  records : List RawRecord
  corrupt : Bool
deriving DecidableEq

/-- What `load_data`'s `try` block sees for a given file state:
`missing` when there is no file, `raises` when the file exists but
reading or parsing it raises, and otherwise the persisted records. -/
def loadOutcomeOf : Option HistoryFile → LoadOutcome
  | none => .missing
  | some f => if f.corrupt then .raises "parse error" else .ok f.records

/-- The periodic-save branch of `add_reading` (`src/api_server.py`
lines 121-137) as a transformer of the persisted file: `load_data`
returns the parsed records (or `None` when the file is missing or
unreadable); `pd.concat` appends the new reading's row — whose
timestamp is still the string the endpoint built — to them and
`reset_index(drop=True)` only renumbers; `save_data`'s `astype(str)`
then re-renders the parsed rows' timestamps while the new row's string
passes through `str` unchanged.  The result is the record list written
back to the file. -/
def add_reading_periodic_save {τ : Type} (parse : String → τ)
    (render : τ → String) (file : Option HistoryFile)
    (new_reading : RawRecord) : List RawRecord :=
  match load_data parse (loadOutcomeOf file) with
  | some existing => existing.map (renderRecord render) ++ [new_reading]
  | none => [new_reading]

/-- A data point of the simulator (`src/data_simulator.py`): current,
voltage and power (the timestamp is attached by the caller). -/
structure LivePoint where
  current : ℚ
  voltage : ℚ
  power : ℚ
deriving DecidableEq

/-- The random draws consumed by one call of `get_live_data_point`:
the two gaussian noises, the `np.random.random()` draw compared with
`anomaly_probability`, the spike/drop choice of `np.random.choice`,
and the two `np.random.uniform` multipliers (`spike_mult` from
`uniform(2.5, 4.0)`, `drop_mult` from `uniform(0.1, 0.4)`). -/
structure LiveRand where
  noise_current : ℚ
  noise_voltage : ℚ
  draw : ℚ
  pick_spike : Bool
  spike_mult : ℚ
  drop_mult : ℚ

/-- From `src/data_simulator.py`, `get_live_data_point(last_point,
include_anomalies, anomaly_probability)`.  `target_current` abstracts
the daily-pattern value `base_load + morning_factor + evening_factor`
(computed with `np.exp`/`np.sin`, so passed in as a parameter): the new
current moves nine tenths of the way from the last current toward the
target plus noise, is clamped below by `0.1`, is then multiplied by the
spike or drop factor when the anomaly branch fires, and the power is
computed last as current times voltage. -/
def get_live_data_point (last_current target_current : ℚ)
    (include_anomalies : Bool) (anomaly_probability : ℚ) (r : LiveRand) :
    LivePoint :=
  let new_current := last_current * (9/10) + target_current * (1/10) +
    r.noise_current
  let new_current := max (1/10) new_current
  let new_voltage := 220 + r.noise_voltage
  let new_current :=
    if include_anomalies = true ∧ r.draw < anomaly_probability then
      if r.pick_spike then new_current * r.spike_mult
      else new_current * r.drop_mult
    else new_current
  let new_power := new_current * new_voltage
  ⟨new_current, new_voltage, new_power⟩

/-- One row of `simulate_energy_data` (`src/data_simulator.py` lines
21-52) before any anomaly injection: `pattern` abstracts the row's
daily-pattern value `base_load + morning_peak + evening_peak`, `noise`
its `np.random.normal(0, 0.1)` draw and `vnoise` its
`np.random.normal(0, 2)` draw; the current is clamped below by `0.1`
(`np.maximum(0.1, current)`) and the power is current times voltage. -/
def simulate_row (pattern noise vnoise : ℚ) : LivePoint :=
  let current := max (1/10) (pattern + noise)
  let voltage := 220 + vnoise
  ⟨current, voltage, current * voltage⟩

/-- From `src/data_simulator.py`, `simulate_energy_data(n_points,
include_anomalies=False)`: the element-wise numpy computation of the
returned DataFrame's current/voltage/power columns, one row per entry
of the zipped pattern and noise vectors.  With
`include_anomalies=False` the anomaly-injection loop (lines 55-79)
does not run, so this is the whole frame. -/
def simulate_energy_data (patterns noises vnoises : List ℚ) :
    List LivePoint :=
  (patterns.zip (noises.zip vnoises)).map
    (fun pv => simulate_row pv.1 pv.2.1 pv.2.2)

/-- The forest predicts `-1` on a row exactly when its decision
function is negative there. -/
theorem predict_eq_neg_one_iff (f : Forest) (row : List ℚ) :
    f.predict row = -1 ↔ f.decision_function row < 0 := by
  unfold Forest.predict
  split_ifs with h
  · simp [h]
  · simp [h]

/-- C5: with `low_threshold ≤ high_threshold`, `check_threshold_breach`
returns `("High", "red")` iff the value is at least the high threshold,
`("Moderate", "orange")` iff it is at least the low threshold and below
the high one, and `("Normal", "green")` iff it is below the low
threshold. -/
theorem check_threshold_breach_trichotomy
    (current_value low_threshold high_threshold : ℚ)
    (h : low_threshold ≤ high_threshold) :
    (check_threshold_breach current_value low_threshold high_threshold =
        ("High", "red") ↔ high_threshold ≤ current_value) ∧
    (check_threshold_breach current_value low_threshold high_threshold =
        ("Moderate", "orange") ↔
      (low_threshold ≤ current_value ∧ current_value < high_threshold)) ∧
    (check_threshold_breach current_value low_threshold high_threshold =
        ("Normal", "green") ↔ current_value < low_threshold) := by
  unfold check_threshold_breach
  split_ifs with h1 h2 <;>
    refine ⟨?_, ?_, ?_⟩ <;> simp [Prod.ext_iff] <;> first
      | linarith
      | constructor <;> linarith
      | (intro hx; linarith)

/-- Witness for the C5 theorem at value 5, thresholds 2 and 4. -/
theorem check_threshold_breach_trichotomy_witness :
    (2 : ℚ) ≤ 4 ∧
    ((check_threshold_breach 5 2 4 = ("High", "red") ↔ (4 : ℚ) ≤ 5) ∧
     (check_threshold_breach 5 2 4 = ("Moderate", "orange") ↔
       ((2 : ℚ) ≤ 5 ∧ (5 : ℚ) < 4)) ∧
     (check_threshold_breach 5 2 4 = ("Normal", "green") ↔ (5 : ℚ) < 2)) :=
  ⟨by norm_num, check_threshold_breach_trichotomy 5 2 4 (by norm_num)⟩


/-- C1: in both branches of `update_data` an alert entry is appended
iff the threshold status is "High" or the anomaly flag is set; the
appended entry's type is "Anomaly Detected" whenever the anomaly flag
is set and "Threshold Breach" otherwise; and a "Moderate" status
without the anomaly flag leaves the alert history unchanged (the last
conjunct states that implication as an equivalence). -/
theorem update_data_alert_classification {τ : Type}
    (alert_history : List (Alert τ)) (ts : τ) (cur pow : ℚ)
    (is_anomaly : Bool) (low high : ℚ) :
    (update_data_alert_step alert_history ts cur pow is_anomaly low high =
        alert_history ++
          [⟨ts, cur, pow,
            if is_anomaly then "Anomaly Detected" else "Threshold Breach",
            (check_threshold_breach cur low high).1⟩] ↔
      ((check_threshold_breach cur low high).1 = "High" ∨
        is_anomaly = true)) ∧
    (update_data_alert_step alert_history ts cur pow is_anomaly low high =
        alert_history ↔
      ¬((check_threshold_breach cur low high).1 = "High" ∨
        is_anomaly = true)) ∧
    (((check_threshold_breach cur low high).1 = "Moderate" ∧
        is_anomaly = false) ↔
      ((check_threshold_breach cur low high).1 = "Moderate" ∧
        is_anomaly = false ∧
        update_data_alert_step alert_history ts cur pow is_anomaly low high =
          alert_history)) := by
  by_cases hc : (check_threshold_breach cur low high).1 = "High" ∨
      is_anomaly = true
  · unfold update_data_alert_step
    rw [if_pos hc]
    refine ⟨by simp [hc], ?_, ?_⟩
    · simp [hc]
    · constructor
      · rintro ⟨hm, hf⟩
        rcases hc with hh | ht
        · rw [hm] at hh
          exact absurd hh (by decide)
        · rw [ht] at hf
          exact absurd hf (by decide)
      · rintro ⟨hm, hf, _⟩
        exact ⟨hm, hf⟩
  · unfold update_data_alert_step
    rw [if_neg hc]
    refine ⟨?_, by simp [hc], ?_⟩
    · simp only [hc, iff_false]
      intro habs
      have := congrArg List.length habs
      simp at this
    · constructor
      · rintro ⟨hm, hf⟩
        exact ⟨hm, hf, rfl⟩
      · rintro ⟨hm, hf, _⟩
        exact ⟨hm, hf⟩

/-- C2: `train_isolation_forest_model` returns the forest obtained by
fitting `IsolationForest(n_estimators=100, max_samples='auto',
contamination=0.01, random_state=42)` on the training features
transformed by the scaler fitted on those same features, stores that
fitted scaler on the model, and both `detect_anomalies` and
`get_anomaly_score` transform any later input with that stored
training-fitted scaler. -/
theorem train_isolation_forest_model_spec (sk : SKLearn)
    (data : List (List ℚ)) :
    (train_isolation_forest_model sk data).scaler_ = sk.fitScaler data ∧
    (train_isolation_forest_model sk data).forest =
      sk.fitForest ⟨100, "auto", 1/100, 42⟩
        (data.map (sk.fitScaler data).transform) ∧
    (∀ input : List (List ℚ),
      detect_anomalies (train_isolation_forest_model sk data) input =
        input.map (fun row => decide
          ((train_isolation_forest_model sk data).forest.predict
            ((sk.fitScaler data).transform row) = -1))) ∧
    (∀ input : List (List ℚ),
      get_anomaly_score (train_isolation_forest_model sk data) input =
        input.map (fun row =>
          -((train_isolation_forest_model sk data).forest.decision_function
            ((sk.fitScaler data).transform row)))) := by
  refine ⟨rfl, rfl, ?_, ?_⟩ <;> intro input <;>
    simp [detect_anomalies, get_anomaly_score, train_isolation_forest_model,
      List.map_map, Function.comp]

/-- C3: `get_anomaly_score` returns row-wise the negated
decision-function value of the scaled row, and `detect_anomalies` flags
exactly the rows whose anomaly score is strictly positive, equivalently
the rows the forest predicts as `-1`. -/
theorem get_anomaly_score_neg_decision (m : Model) (data : List (List ℚ)) :
    get_anomaly_score m data =
      data.map (fun row =>
        -(m.forest.decision_function (m.scaler_.transform row))) ∧
    detect_anomalies m data =
      (get_anomaly_score m data).map (fun s => decide (0 < s)) ∧
    detect_anomalies m data =
      data.map (fun row =>
        decide (m.forest.predict (m.scaler_.transform row) = -1)) := by
  refine ⟨?_, ?_, ?_⟩
  · simp [get_anomaly_score, List.map_map, Function.comp]
  · have hfun : ∀ row : List ℚ,
        decide (m.forest.predict (m.scaler_.transform row) = -1) =
        decide (0 < -(m.forest.decision_function (m.scaler_.transform row))) := by
      intro row
      have := predict_eq_neg_one_iff m.forest (m.scaler_.transform row)
      by_cases hd : m.forest.decision_function (m.scaler_.transform row) < 0
      · simp [this, hd, neg_pos]
      · simp [this, hd, neg_pos]
    simp only [detect_anomalies, get_anomaly_score, List.map_map,
      Function.comp]
    exact List.map_congr_left (fun row _ => hfun row)
  · simp [detect_anomalies, List.map_map, Function.comp]

/-- C4: `detect_anomalies` returns one boolean per input row, and for
every index in range the returned boolean is true exactly when the
forest predicts `-1` on the scaler-transformed row at that index. -/
theorem detect_anomalies_index_spec (m : Model) (data : List (List ℚ))
    (i : ℕ) (h : i < data.length) :
    (detect_anomalies m data).length = data.length ∧
    ((detect_anomalies m data).getD i false = true ↔
      m.forest.predict (m.scaler_.transform (data.getD i [])) = -1) := by
  constructor
  · simp [detect_anomalies]
  · have hget : data[i]? = some (data.get ⟨i, h⟩) := by
      simp [List.getElem?_eq_getElem h]
    simp [detect_anomalies, List.getD, List.getElem?_map, hget]

/-- Witness for the C4 theorem: a one-row frame, index 0, and a model
whose decision function is the first feature minus one. -/
theorem detect_anomalies_index_spec_witness :
    (0 : ℕ) < ([[(0 : ℚ)]] : List (List ℚ)).length ∧
    ((detect_anomalies ⟨⟨fun row => row.headD 0⟩, ⟨id⟩⟩
        [[(0 : ℚ)]]).length = ([[(0 : ℚ)]] : List (List ℚ)).length ∧
     ((detect_anomalies ⟨⟨fun row => row.headD 0⟩, ⟨id⟩⟩
          [[(0 : ℚ)]]).getD 0 false = true ↔
       Forest.predict ⟨fun row => row.headD 0⟩
         (Scaler.transform ⟨id⟩ (([[(0 : ℚ)]] : List (List ℚ)).getD 0 [])) =
         -1)) :=
  ⟨by decide,
   detect_anomalies_index_spec ⟨⟨fun row => row.headD 0⟩, ⟨id⟩⟩
     [[(0 : ℚ)]] 0 (by decide)⟩

/-- The truncation branch of the buffer update in closed form:
`pySliceFrom` with negative start `-60` keeps the last 60 elements. -/
theorem add_reading_buffer_eq_drop {α : Type} (latest_readings : List α)
    (new_reading : α) :
    add_reading_buffer latest_readings new_reading =
      (latest_readings ++ [new_reading]).drop
        (latest_readings.length + 1 - MAX_LATEST_READINGS) := by
  unfold add_reading_buffer pySliceFrom MAX_LATEST_READINGS
  by_cases h : 60 < (latest_readings ++ [new_reading]).length
  · rw [if_pos h]
    have hlen : (latest_readings ++ [new_reading]).length =
        latest_readings.length + 1 := by simp
    rw [if_neg (by omega)]
    congr 1
    omega
  · rw [if_neg h]
    have hlen : (latest_readings ++ [new_reading]).length =
        latest_readings.length + 1 := by simp
    have : latest_readings.length + 1 - 60 = 0 := by omega
    rw [this, List.drop_zero]

/-- C6: after each `add_reading` call the buffer holds at most
`MAX_LATEST_READINGS` (60) readings, namely the most recent
`min (n + 1) 60` of the n previous readings followed by the new one,
in arrival order, older readings being dropped from the front, and the
newly added reading is last. -/
theorem add_reading_buffer_spec {α : Type} (latest_readings : List α)
    (new_reading : α) :
    (add_reading_buffer latest_readings new_reading).length ≤
      MAX_LATEST_READINGS ∧
    (add_reading_buffer latest_readings new_reading).length =
      min (latest_readings.length + 1) MAX_LATEST_READINGS ∧
    add_reading_buffer latest_readings new_reading =
      (latest_readings ++ [new_reading]).drop
        (latest_readings.length + 1 - MAX_LATEST_READINGS) ∧
    (add_reading_buffer latest_readings new_reading).getLast? =
      some new_reading := by
  have hdrop := add_reading_buffer_eq_drop latest_readings new_reading
  have hlen : (latest_readings ++ [new_reading]).length =
      latest_readings.length + 1 := by simp
  refine ⟨?_, ?_, hdrop, ?_⟩
  · rw [hdrop, List.length_drop, hlen]
    unfold MAX_LATEST_READINGS
    omega
  · rw [hdrop, List.length_drop, hlen]
    unfold MAX_LATEST_READINGS
    omega
  · rw [hdrop,
      List.drop_append_of_le_length (by unfold MAX_LATEST_READINGS; omega),
      List.getLast?_concat]

/-- C7 counterexample: the history file exists and persists one record
(current 2), but loading it raises — for instance corrupt JSON or a
stored timestamp `pd.to_datetime` cannot parse — so `load_data`
returns `None`, the periodic-save branch builds a single-row frame,
and the file is rewritten to just the new reading (current 1): the
previously persisted record is removed. -/
theorem add_reading_periodic_save_corrupt_counterexample :
    add_reading_periodic_save (fun s => s) (fun s => s)
      (some ⟨[⟨2, 220, 440, "ESP32_001", "2025-05-05T10:00:00"⟩], true⟩)
      ⟨1, 220, 220, "ESP32_001", "2025-05-05T10:05:00"⟩ =
      [⟨1, 220, 220, "ESP32_001", "2025-05-05T10:05:00"⟩] ∧
    (add_reading_periodic_save (fun s => s) (fun s => s)
      (some ⟨[⟨2, 220, 440, "ESP32_001", "2025-05-05T10:00:00"⟩], true⟩)
      ⟨1, 220, 220, "ESP32_001", "2025-05-05T10:05:00"⟩).contains
      ⟨2, 220, 440, "ESP32_001", "2025-05-05T10:00:00"⟩ = false ∧
    (some (⟨[⟨2, 220, 440, "ESP32_001", "2025-05-05T10:00:00"⟩], true⟩ :
      HistoryFile)).isSome = true := by
  refine ⟨rfl, by decide, rfl⟩

/-- C7 amended: when `load_data` successfully returns the persisted
records, the rewritten file holds exactly those records, in their
original order and count, each unchanged except that its timestamp
string is re-rendered through the datetime parse/render round trip,
followed by the single new reading at the end; when `load_data`
returns `None` — both when no file existed and when the existing
file's read or parse raised — the file is rewritten to just the new
reading, in the corrupt-file case discarding the previously persisted
records. -/
theorem add_reading_periodic_save_spec {τ : Type} (parse : String → τ)
    (render : τ → String) (records : List RawRecord)
    (new_reading : RawRecord) :
    add_reading_periodic_save parse render (some ⟨records, false⟩)
        new_reading =
      records.map (fun r => renderRecord render (parseRecord parse r)) ++
        [new_reading] ∧
    (add_reading_periodic_save parse render (some ⟨records, false⟩)
        new_reading).length = records.length + 1 ∧
    (add_reading_periodic_save parse render (some ⟨records, false⟩)
          new_reading).map
        (fun r => (r.current, r.voltage, r.power, r.device_id)) =
      (records ++ [new_reading]).map
        (fun r => (r.current, r.voltage, r.power, r.device_id)) ∧
    (add_reading_periodic_save parse render (some ⟨records, false⟩)
        new_reading).getLast? = some new_reading ∧
    add_reading_periodic_save parse render none new_reading =
      [new_reading] ∧
    add_reading_periodic_save parse render (some ⟨records, true⟩)
        new_reading = [new_reading] := by
  have hmain : add_reading_periodic_save parse render (some ⟨records, false⟩)
      new_reading =
      records.map (fun r => renderRecord render (parseRecord parse r)) ++
        [new_reading] := by
    unfold add_reading_periodic_save loadOutcomeOf load_data
    simp [List.map_map, Function.comp]
  refine ⟨hmain, ?_, ?_, ?_, rfl, rfl⟩
  · rw [hmain]
    simp
  · rw [hmain]
    simp [List.map_map, Function.comp, renderRecord, parseRecord]
  · rw [hmain, List.getLast?_concat]

/-- C8: `load_data` returns `None` when the file is missing and when
reading or parsing raises, and otherwise the records with parsed
timestamps; `save_data` never propagates an exception: on a failed
write nothing is written and the error is only printed, on a
successful write the rendered records are written and nothing is
printed. -/
theorem load_save_error_handling {τ : Type} (parse : String → τ)
    (render : τ → String) (msg : String) (records : List RawRecord)
    (e : String) (data : List (ParsedRecord τ)) :
    load_data parse .missing = none ∧
    load_data parse (.raises msg) = none ∧
    load_data parse (.ok records) = some (records.map (parseRecord parse)) ∧
    (∀ outcome : LoadOutcome, load_data parse outcome = none ↔
      (outcome = .missing ∨ ∃ m, outcome = .raises m)) ∧
    save_data render .ok data = (some (data.map (renderRecord render)), none) ∧
    save_data render (.raises e) data =
      (none, some ("Error saving data: " ++ e)) ∧
    (∀ write : WriteOutcome, (save_data render write data).2 = none ↔
      write = .ok) := by
  refine ⟨rfl, rfl, rfl, ?_, rfl, rfl, ?_⟩
  · intro outcome
    cases outcome <;> simp [load_data]
  · intro write
    cases write <;> simp [save_data]

/-- C9: for every outcome of the random draws (the uniform multipliers
lying in their documented ranges), the point returned by
`get_live_data_point` has strictly positive current and power equal to
current times voltage exactly; and every row produced by
`simulate_energy_data` without anomalies has current at least `0.1`
and power equal to current times voltage. -/
theorem get_live_data_point_positive_spec
    (last_current target_current : ℚ) (include_anomalies : Bool)
    (anomaly_probability : ℚ) (r : LiveRand)
    (patterns noises vnoises : List ℚ)
    (h1 : 5/2 ≤ r.spike_mult) (_h2 : r.spike_mult < 4)
    (h3 : 1/10 ≤ r.drop_mult) (_h4 : r.drop_mult < 2/5) :
    0 < (get_live_data_point last_current target_current include_anomalies
        anomaly_probability r).current ∧
    (get_live_data_point last_current target_current include_anomalies
        anomaly_probability r).power =
      (get_live_data_point last_current target_current include_anomalies
          anomaly_probability r).current *
        (get_live_data_point last_current target_current include_anomalies
            anomaly_probability r).voltage ∧
    (simulate_energy_data patterns noises vnoises).all
      (fun row => decide ((1 : ℚ)/10 ≤ row.current) &&
        decide (row.power = row.current * row.voltage)) = true := by
  have hbase : (0 : ℚ) < max (1/10) (last_current * (9/10) +
      target_current * (1/10) + r.noise_current) :=
    lt_of_lt_of_le (by norm_num) (le_max_left _ _)
  refine ⟨?_, ?_, ?_⟩
  · unfold get_live_data_point
    dsimp only
    split_ifs with hc hp
    · exact mul_pos hbase (by linarith)
    · exact mul_pos hbase (by linarith)
    · exact hbase
  · unfold get_live_data_point
    dsimp only
  · rw [List.all_eq_true]
    intro row hrow
    unfold simulate_energy_data at hrow
    rw [List.mem_map] at hrow
    obtain ⟨pv, _, hpv⟩ := hrow
    rw [Bool.and_eq_true, decide_eq_true_iff, decide_eq_true_iff, ← hpv]
    exact ⟨le_max_left _ _, rfl⟩

/-- Witness for the C9 theorem: a spike anomaly draw with multiplier 3
on a concrete point, and a one-row simulation. -/
theorem get_live_data_point_positive_spec_witness :
    ((5 : ℚ)/2 ≤ 3 ∧ (3 : ℚ) < 4 ∧ (1 : ℚ)/10 ≤ 1/5 ∧ (1 : ℚ)/5 < 2/5) ∧
    (0 < (get_live_data_point 1 1 true (1/50)
        ⟨0, 0, 0, true, 3, 1/5⟩).current ∧
     (get_live_data_point 1 1 true (1/50) ⟨0, 0, 0, true, 3, 1/5⟩).power =
       (get_live_data_point 1 1 true (1/50)
           ⟨0, 0, 0, true, 3, 1/5⟩).current *
         (get_live_data_point 1 1 true (1/50)
             ⟨0, 0, 0, true, 3, 1/5⟩).voltage ∧
     (simulate_energy_data [0] [0] [0]).all
       (fun row => decide ((1 : ℚ)/10 ≤ row.current) &&
         decide (row.power = row.current * row.voltage)) = true) :=
  ⟨by norm_num,
   get_live_data_point_positive_spec 1 1 true (1/50) ⟨0, 0, 0, true, 3, 1/5⟩
     [0] [0] [0] (by norm_num) (by norm_num) (by norm_num) (by norm_num)⟩

/-- C10 counterexample: with the non-negative limit 0 and one stored
reading, `/api/readings/latest` returns that reading — one more than
the requested limit and than `min 0 1 = 0` — because the Python slice
`latest_readings[-0:]` is the whole buffer. -/
theorem get_latest_readings_zero_limit_counterexample :
    get_latest_readings [(5 : ℚ)] 0 = [5] ∧
    (get_latest_readings [(5 : ℚ)] 0).length = 1 ∧
    min (0 : Int) (([(5 : ℚ)] : List ℚ).length : Int) = 0 := by
  refine ⟨rfl, rfl, rfl⟩

/-- C10 amended: for every limit of at least 1, `/api/readings/latest`
returns exactly the `min limit n` most recent of the n stored readings,
in arrival order (the suffix of the buffer), and in particular never
more than the requested limit. -/
theorem get_latest_readings_pos_limit_spec {α : Type}
    (latest_readings : List α) (limit : Int) (h : 1 ≤ limit) :
    (get_latest_readings latest_readings limit).length =
      min limit.toNat latest_readings.length ∧
    get_latest_readings latest_readings limit =
      latest_readings.drop
        (latest_readings.length - min limit.toNat latest_readings.length) ∧
    (get_latest_readings latest_readings limit).length ≤ limit.toNat := by
  have hkey : get_latest_readings latest_readings limit =
      latest_readings.drop
        (latest_readings.length - min limit.toNat latest_readings.length) := by
    unfold get_latest_readings pySliceFrom
    by_cases hn : latest_readings.length = 0
    · have hnil : latest_readings = [] := List.length_eq_zero.mp hn
      subst hnil
      simp
    · have hmin : min limit (latest_readings.length : Int) =
          (min limit.toNat latest_readings.length : ℕ) := by omega
      rw [hmin]
      have hpos : 0 < min limit.toNat latest_readings.length := by omega
      rw [if_neg (by omega)]
      congr 1
      omega
  refine ⟨?_, hkey, ?_⟩
  · rw [hkey, List.length_drop]
    omega
  · rw [hkey, List.length_drop]
    omega

/-- Witness for the amended C10 theorem: limit 2 on a three-element
buffer returns the last two readings. -/
theorem get_latest_readings_pos_limit_spec_witness :
    (1 : Int) ≤ 2 ∧
    ((get_latest_readings [(1 : ℚ), 2, 3] 2).length =
       min (2 : Int).toNat ([(1 : ℚ), 2, 3] : List ℚ).length ∧
     get_latest_readings [(1 : ℚ), 2, 3] 2 =
       ([(1 : ℚ), 2, 3] : List ℚ).drop
         (([(1 : ℚ), 2, 3] : List ℚ).length -
           min (2 : Int).toNat ([(1 : ℚ), 2, 3] : List ℚ).length) ∧
     (get_latest_readings [(1 : ℚ), 2, 3] 2).length ≤ (2 : Int).toNat) :=
  ⟨by norm_num, get_latest_readings_pos_limit_spec [1, 2, 3] 2 (by norm_num)⟩
